import Mathlib

/-
Verification development for the xiaozhi music MCP server
(src/xiaozhi-music-mcp/music_mcp_server.py).

The Python source is shallowly embedded below.  Conventions:

* Network effects are modelled as oracle inputs: an HTTP request's outcome
  is a parameter of the embedded function (an `Option` whose `none` case is
  a transport-level exception that the source catches).
* The JSON decoding performed by the HTTP library (`resp.json()` /
  `json.loads`) is likewise an oracle input of type `Option JVal`
  (`none` = decode error, which the source catches).
* The HMAC-SHA1 hex digest computed via Python's `hmac`/`hashlib` standard
  library is abstracted as an explicit function argument
  `hm : String -> String -> String` (key, message -> hex digest).
* Python's `urllib.parse` (`urlparse`, `urljoin`, `urlencode`) is modelled
  faithfully after the CPython 3.11 sources, including the
  `ValueError("Invalid IPv6 URL")` raised for a netloc containing a
  mismatched bracket.  Unmodelled (documented) simplifications: the
  NFKC netloc check and the full `_check_bracketed_host` validation,
  which only reject additional exotic inputs; Python `repr` escaping of
  control characters beyond backslash, quotes, tab, CR and LF.
* Functions that can raise are embedded with `Except String`; the raised
  Python exception message is carried in the `error` case.
-/

deriving instance DecidableEq for Except

namespace MusicMCP

/-! ### Python string primitives -/

/-- Whitespace stripped by Python's `str.strip()` (the ASCII/Latin-1 part,
which covers all inputs exercised by the claims). -/
def pyIsSpace (c : Char) : Bool :=
  c = ' ' || c = '\t' || c = '\n' || c = '\r' || c.toNat = 11 || c.toNat = 12 ||
    (28 ≤ c.toNat && c.toNat ≤ 31) || c.toNat = 133 || c.toNat = 160

/-- Python `str.strip()`: drop leading and trailing whitespace. -/
def pyStrip (s : String) : String :=
  String.mk (((s.data.dropWhile pyIsSpace).reverse.dropWhile pyIsSpace).reverse)

/-! ### JSON values (results of `resp.json()` / `json.loads`) -/

/-- A decoded JSON value, as produced by Python's `json` module:
`None`, booleans, integers, strings, lists and objects (dicts). -/
inductive JVal where
  | jnull : JVal
  | jbool : Bool → JVal
  | jnum : Int → JVal
  | jstr : String → JVal
  | jlist : List JVal → JVal
  | jobj : List (String × JVal) → JVal
deriving Repr

/-- Python truthiness of a decoded JSON value. -/
def truthy : JVal → Bool
  | .jnull => false
  | .jbool b => b
  | .jnum n => n ≠ 0
  | .jstr s => s ≠ ""
  | .jlist xs => !xs.isEmpty
  | .jobj fs => !fs.isEmpty

/-- Python `a or b` over decoded JSON values. -/
def pyOrJ (a b : JVal) : JVal := if truthy a then a else b

/-- `dict.get(k)` on a decoded JSON object (`none` = Python `None`). -/
def pyGet (fs : List (String × JVal)) (k : String) : Option JVal :=
  (fs.find? (fun p => p.1 == k)).map (fun p => p.2)

/-- Python `repr` of a string (quote choice and the principal escapes). -/
def pyStrRepr (s : String) : String :=
  let sq : Char := Char.ofNat 39
  let dq : Char := Char.ofNat 34
  let q : Char := if s.data.contains sq && !(s.data.contains dq) then dq else sq
  let esc := s.data.foldr
    (fun c acc =>
      if c = '\\' || c = q then '\\' :: c :: acc
      else if c = '\n' then '\\' :: 'n' :: acc
      else if c = '\r' then '\\' :: 'r' :: acc
      else if c = '\t' then '\\' :: 't' :: acc
      else c :: acc) []
  String.mk (q :: esc ++ [q])

mutual
/-- Python `repr` of a decoded JSON value. -/
def pyRepr : JVal → String
  | .jnull => "None"
  | .jbool true => "True"
  | .jbool false => "False"
  | .jnum n => toString n
  | .jstr s => pyStrRepr s
  | .jlist xs => "[" ++ String.intercalate ", " (pyReprList xs) ++ "]"
  | .jobj fs => "\x7b" ++ String.intercalate ", " (pyReprFields fs) ++ "\x7d"

def pyReprList : List JVal → List String
  | [] => []
  | x :: xs => pyRepr x :: pyReprList xs

def pyReprFields : List (String × JVal) → List String
  | [] => []
  | (k, v) :: fs => (pyStrRepr k ++ ": " ++ pyRepr v) :: pyReprFields fs
end

/-- Python `str(...)` of a decoded JSON value. -/
def pyStr : JVal → String
  | .jstr s => s
  | v => pyRepr v

/-! ### Python dict primitives (the process-wide search-result cache) -/

/-- Python dict assignment `m[k] = v`: replace in place when the key is
present (keeping its position), append otherwise. -/
def pyDictSet {α : Type} : List (String × α) → String → α → List (String × α)
  | [], k, v => [(k, v)]
  | (k', v') :: rest, k, v =>
    if k' = k then (k', v) :: rest else (k', v') :: pyDictSet rest k v

/-- Python `m.get(k)` / `m[k]` guarded by `k in m`: the value at a key. -/
def pyDictGet {α : Type} (m : List (String × α)) (k : String) : Option α :=
  (m.find? (fun p => p.1 == k)).map (fun p => p.2)

/-- Python `k in m`. -/
def pyDictContains {α : Type} (m : List (String × α)) (k : String) : Bool :=
  m.any (fun p => p.1 == k)

/-- One cached search result (`song_entry` in `_search_api`); the upstream
id is stored in its string form. -/
structure SongEntry where
  id : String
  name : String
  artist : String
  url : String
  pic : String
  lrc : String
deriving Repr, DecidableEq

theorem pyDictGet_set_self {α : Type} (m : List (String × α)) (k : String) (v : α) :
    pyDictGet (pyDictSet m k v) k = some v := by
  induction m with
  | nil => simp [pyDictSet, pyDictGet]
  | cons p rest ih =>
    by_cases h : p.1 = k
    · simp [pyDictSet, pyDictGet, h]
    · simpa [pyDictSet, pyDictGet, h] using ih

theorem pyDictGet_absent {α : Type} (m : List (String × α)) (k : String) :
    pyDictContains m k = false → pyDictGet m k = none := by
  induction m with
  | nil => intro _; simp [pyDictGet]
  | cons p rest ih =>
    intro h
    simp only [pyDictContains, List.any_cons, Bool.or_eq_false_iff] at h
    simpa [pyDictGet, List.find?_cons, h.1] using ih h.2

/-- C9: the resolution cache satisfies: after `put(id, r)`, `get(id)`
returns `r`; putting twice under the same id keeps only the latest value
(last-write-wins); and `get` of an id that was never put returns a
not-found outcome (`none`) rather than raising an error. -/
theorem search_result_cache_ops {α : Type} (m : List (String × α)) (k : String) (v1 v2 : α) :
    pyDictGet (pyDictSet m k v1) k = some v1 ∧
    pyDictGet (pyDictSet (pyDictSet m k v1) k v2) k = some v2 ∧
    (pyDictContains m k = false → pyDictGet m k = none) := by
  exact ⟨pyDictGet_set_self m k v1, pyDictGet_set_self (pyDictSet m k v1) k v2,
    pyDictGet_absent m k⟩

/-- C9 witness: the cache laws, evaluated at a concrete id and two concrete
search results on the empty cache. -/
theorem search_result_cache_ops_witness :
    pyDictContains ([] : List (String × SongEntry)) "7" = false ∧
    (pyDictGet (pyDictSet ([] : List (String × SongEntry)) "7"
        ⟨"7", "Song A", "Artist A", "https://a", "", ""⟩) "7" =
      some ⟨"7", "Song A", "Artist A", "https://a", "", ""⟩ ∧
     pyDictGet (pyDictSet (pyDictSet ([] : List (String × SongEntry)) "7"
        ⟨"7", "Song A", "Artist A", "https://a", "", ""⟩) "7"
        ⟨"7", "Song B", "Artist B", "https://b", "", ""⟩) "7" =
      some ⟨"7", "Song B", "Artist B", "https://b", "", ""⟩ ∧
     (pyDictContains ([] : List (String × SongEntry)) "7" = false →
      pyDictGet ([] : List (String × SongEntry)) "7" = none)) :=
  ⟨by decide,
   search_result_cache_ops ([] : List (String × SongEntry)) "7"
     ⟨"7", "Song A", "Artist A", "https://a", "", ""⟩
     ⟨"7", "Song B", "Artist B", "https://b", "", ""⟩⟩

/-! ### urllib.parse model (CPython 3.11) -/

/-- Characters valid in URL scheme names (`scheme_chars`). -/
def schemeChars : List Char :=
  "abcdefghijklmnopqrstuvwxyzABCDEFGHIJKLMNOPQRSTUVWXYZ0123456789+-.".data

/-- `uses_relative` from urllib.parse. -/
def usesRelative : List String :=
  ["", "ftp", "http", "gopher", "nntp", "imap", "wais", "file", "https", "shttp",
   "mms", "prospero", "rtsp", "rtsps", "rtspu", "sftp", "svn", "svn+ssh", "ws", "wss"]

/-- `uses_netloc` from urllib.parse. -/
def usesNetloc : List String :=
  ["", "ftp", "http", "gopher", "nntp", "telnet", "imap", "wais", "file", "mms",
   "https", "shttp", "snews", "prospero", "rtsp", "rtsps", "rtspu", "rsync",
   "svn", "svn+ssh", "sftp", "nfs", "git", "git+ssh", "ws", "wss"]

/-- `uses_params` from urllib.parse. -/
def usesParams : List String :=
  ["", "ftp", "hdl", "prospero", "http", "imap", "https", "shttp", "rtsp",
   "rtsps", "rtspu", "sip", "sips", "mms", "sftp", "tel"]

/-- Leading WHATWG C0-control-or-space stripping done by `urlsplit`. -/
def lstripC0 (l : List Char) : List Char := l.dropWhile (fun c => c.toNat ≤ 32)

/-- Removal of the unsafe bytes tab, CR and LF done by `urlsplit`. -/
def removeUnsafe (l : List Char) : List Char :=
  l.filter (fun c => !(c = '\t' || c = '\r' || c = '\n'))

/-- Split a character list at the first occurrence of `c` (the occurrence is
dropped); `none` when `c` does not occur. -/
def splitAtFirst (c : Char) : List Char → Option (List Char × List Char)
  | [] => none
  | x :: xs =>
    if x = c then some ([], xs)
    else (splitAtFirst c xs).map (fun p => (x :: p.1, p.2))

/-- The scheme-detection step of `urlsplit`: the text before the first `:`
is a scheme when it is nonempty, starts with an ASCII letter and consists of
scheme characters only; it is then lowercased.  Returns the (possibly empty)
scheme and the remaining characters. -/
def splitScheme (l : List Char) : List Char × List Char :=
  match splitAtFirst ':' l with
  | none => ([], l)
  | some (before, after) =>
    match before with
    | [] => ([], l)
    | c0 :: _ =>
      if c0.isAlpha && before.all (fun c => schemeChars.contains c) then
        (before.map Char.toLower, after)
      else ([], l)

/-- Delimiters ending the netloc in `_splitnetloc`. -/
def isNetlocDelim (c : Char) : Bool := c = '/' || c = '?' || c = '#'

/-- The five components produced by `urlsplit`. -/
structure SplitUrl where
  scheme : String
  netloc : String
  path : String
  query : String
  fragment : String
deriving Repr, DecidableEq

/-- `urlsplit(url, scheme=defaultScheme)`.  Raises (models the CPython
`ValueError("Invalid IPv6 URL")`) when the netloc contains a mismatched
square bracket.  The additional 3.11 `_check_bracketed_host` and the NFKC
`_checknetloc` validations, which reject further exotic hosts, are not
modelled. -/
def urlsplitE (defaultScheme : String) (url : String) : Except String SplitUrl :=
  let l := removeUnsafe (lstripC0 url.data)
  let schRaw := (splitScheme l).1
  let rest := (splitScheme l).2
  let scheme := if schRaw = [] then defaultScheme else String.mk schRaw
  let netloc : List Char :=
    if rest.take 2 = ['/', '/'] then
      (rest.drop 2).takeWhile (fun c => !isNetlocDelim c)
    else []
  let rest2 : List Char :=
    if rest.take 2 = ['/', '/'] then
      (rest.drop 2).dropWhile (fun c => !isNetlocDelim c)
    else rest
  if (netloc.contains '[' && !netloc.contains ']') ||
     (netloc.contains ']' && !netloc.contains '[') then
    .error "Invalid IPv6 URL"
  else
    let beforeFrag : List Char :=
      match splitAtFirst '#' rest2 with
      | some p => p.1
      | none => rest2
    let fragment : List Char :=
      match splitAtFirst '#' rest2 with
      | some p => p.2
      | none => []
    let path : List Char :=
      match splitAtFirst '?' beforeFrag with
      | some p => p.1
      | none => beforeFrag
    let query : List Char :=
      match splitAtFirst '?' beforeFrag with
      | some p => p.2
      | none => []
    .ok ⟨scheme, String.mk netloc, String.mk path, String.mk query, String.mk fragment⟩

/-- Index of the first occurrence of `c` at position `start` or later. -/
def idxOfFrom (c : Char) : List Char → Nat → Option Nat
  | [], _ => none
  | x :: xs, 0 => if x = c then some 0 else (idxOfFrom c xs 0).map (· + 1)
  | _ :: xs, Nat.succ n => (idxOfFrom c xs n).map (· + 1)

/-- Index of the last occurrence of `c`. -/
def rIdxOf (c : Char) (l : List Char) : Option Nat :=
  (idxOfFrom c l.reverse 0).map (fun i => l.length - 1 - i)

/-- `_splitparams(url)`: split parameters after the `;` in the last path
segment. -/
def splitparams (p : String) : String × String :=
  let l := p.data
  let i? : Option Nat :=
    if l.contains '/' then
      match rIdxOf '/' l with
      | some j => idxOfFrom ';' l j
      | none => none
    else idxOfFrom ';' l 0
  match i? with
  | none => (p, "")
  | some i => (String.mk (l.take i), String.mk (l.drop (i + 1)))

/-- The six components produced by `urlparse`. -/
structure UrlParts where
  scheme : String
  netloc : String
  path : String
  params : String
  query : String
  fragment : String
deriving Repr, DecidableEq

/-- `urlparse(url, scheme=defaultScheme)`. -/
def urlparseE (defaultScheme : String) (url : String) : Except String UrlParts :=
  match urlsplitE defaultScheme url with
  | .error e => .error e
  | .ok s =>
    let pp :=
      if usesParams.contains s.scheme && s.path.data.contains ';' then
        splitparams s.path
      else (s.path, "")
    .ok ⟨s.scheme, s.netloc, pp.1, pp.2, s.query, s.fragment⟩

/-- `urlunsplit((scheme, netloc, url, query, fragment))`. -/
def urlunsplit (scheme netloc url query fragment : String) : String :=
  let url :=
    if netloc ≠ "" || (scheme ≠ "" && usesNetloc.contains scheme && url.data.take 2 ≠ ['/', '/']) then
      let url := if url ≠ "" && url.data.take 1 ≠ ['/'] then "/" ++ url else url
      "//" ++ netloc ++ url
    else url
  let url := if scheme ≠ "" then scheme ++ ":" ++ url else url
  let url := if query ≠ "" then url ++ "?" ++ query else url
  if fragment ≠ "" then url ++ "#" ++ fragment else url

/-- `urlunparse((scheme, netloc, url, params, query, fragment))`. -/
def urlunparse (u : UrlParts) : String :=
  let url := if u.params ≠ "" then u.path ++ ";" ++ u.params else u.path
  urlunsplit u.scheme u.netloc url u.query u.fragment

/-- Python `str.split(sep)` for a one-character separator (always yields at
least one piece; adjacent separators yield empty pieces). -/
def splitOnCharAux (c : Char) : List Char → List Char → List String
  | [], acc => [String.mk acc.reverse]
  | x :: xs, acc =>
    if x = c then String.mk acc.reverse :: splitOnCharAux c xs []
    else splitOnCharAux c xs (x :: acc)

/-- Python `s.split(c)` on a string. -/
def splitOnChar (c : Char) (s : String) : List String := splitOnCharAux c s.data []

/-- `segments[1:-1] = filter(None, segments[1:-1])` from `urljoin`. -/
def filterMiddle (l : List String) : List String :=
  match l with
  | [] => []
  | [x] => [x]
  | x :: rest =>
    match rest.getLast? with
    | none => [x]
    | some lastSeg => x :: (rest.dropLast.filter (fun s => s != "")) ++ [lastSeg]

/-- The dot-segment resolution loop of `urljoin`. -/
def resolveSegments (segments : List String) : List String :=
  let resolved := segments.foldl
    (fun acc seg =>
      if seg = ".." then acc.dropLast
      else if seg = "." then acc
      else acc ++ [seg]) []
  if segments.getLast? = some "." || segments.getLast? = some ".." then
    resolved ++ [""]
  else resolved

/-- `urljoin(base, url)`. -/
def urljoinE (base url : String) : Except String String :=
  if base = "" then .ok url
  else if url = "" then .ok base
  else
    match urlparseE "" base with
    | .error e => .error e
    | .ok b =>
      match urlparseE b.scheme url with
      | .error e => .error e
      | .ok u =>
        if u.scheme ≠ b.scheme || !usesRelative.contains u.scheme then .ok url
        else if usesNetloc.contains u.scheme && u.netloc ≠ "" then
          .ok (urlunparse ⟨u.scheme, u.netloc, u.path, u.params, u.query, u.fragment⟩)
        else
          let netloc := if usesNetloc.contains u.scheme then b.netloc else u.netloc
          if u.path = "" && u.params = "" then
            let query := if u.query = "" then b.query else u.query
            .ok (urlunparse ⟨u.scheme, netloc, b.path, b.params, query, u.fragment⟩)
          else
            let baseParts :=
              let bp := splitOnChar '/' b.path
              if bp.getLast? = some "" then bp else bp.dropLast
            let segments :=
              if u.path.data.take 1 = ['/'] then splitOnChar '/' u.path
              else filterMiddle (baseParts ++ splitOnChar '/' u.path)
            let joined := String.intercalate "/" (resolveSegments segments)
            let finalPath := if joined = "" then "/" else joined
            .ok (urlunparse ⟨u.scheme, netloc, finalPath, u.params, u.query, u.fragment⟩)

/-! ### Configuration constants (module-level, with their documented defaults) -/

/-- `MUSIC_API_BASE_URL` (default value of the environment variable). -/
def MUSIC_API_BASE_URL : String := "https://api.i-meto.com/meting/api"

/-- `MUSIC_SIGN_PARAM` (default `auth`). -/
def MUSIC_SIGN_PARAM : String := "auth"

/-- `MUSIC_SIGN_REQUIRED_TYPES`. -/
def MUSIC_SIGN_REQUIRED_TYPES : List String := ["url", "lrc", "pic"]

/-! ### `_normalize_music_url` -/

/-- The scheme `urlparse` (with empty default) would assign to a URL; this
part of URL parsing is total. -/
def urlScheme (url : String) : String :=
  String.mk (splitScheme (removeUnsafe (lstripC0 url.data))).1

/-- `_normalize_music_url(url)`: complete a partial address into a full
URL.  `Except.error` models an escaping `ValueError` from `urlparse`. -/
def _normalize_music_url (url : String) : Except String String :=
  let normalized := pyStrip url
  if normalized = "" then .ok ""
  else
    match urlparseE "" normalized with
    | .error e => .error e
    | .ok parsed =>
      if parsed.scheme = "http" ∨ parsed.scheme = "https" then .ok normalized
      else if normalized.data.take 2 = ['/', '/'] then .ok ("https:" ++ normalized)
      else urljoinE MUSIC_API_BASE_URL normalized

example : _normalize_music_url "" = .ok "" := by decide
example : _normalize_music_url "http://x/y" = .ok "http://x/y" := by decide
example : _normalize_music_url "//x/y" = .ok "https://x/y" := by decide
example : _normalize_music_url "/api?id=1" = .ok "https://api.i-meto.com/api?id=1" := by decide
example : _normalize_music_url "api?id=1" = .ok "https://api.i-meto.com/meting/api?id=1" := by decide
example : _normalize_music_url "x" = .ok "https://api.i-meto.com/meting/x" := by decide
example : _normalize_music_url "ftp://x/y" = .ok "ftp://x/y" := by decide
example : _normalize_music_url "//[" = .error "Invalid IPv6 URL" := by decide
example : _normalize_music_url "  http://x/y  " = .ok "http://x/y" := by decide

/-! ### `_build_music_params` (the signer) -/

/-- `_build_music_params(server, req_type, req_id)`.

`hm key message` abstracts `hmac.new(key, message, sha1).hexdigest()` and
`token` is the configured `MUSIC_API_TOKEN`; `req_id` is already a string
at every call site, so `str(req_id)` is the identity.  The `error` case
models the raised `RuntimeError`. -/
def _build_music_params (hm : String → String → String) (token : String)
    (server req_type req_id : String) : Except String (List (String × String)) :=
  let params := [("server", server), ("type", req_type), ("id", req_id)]
  if MUSIC_SIGN_REQUIRED_TYPES.contains req_type then
    if token = "" then .error "缺少 MUSIC_API_TOKEN，无法为受保护接口生成签名"
    else .ok (params ++ [(MUSIC_SIGN_PARAM, hm token (server ++ req_type ++ req_id))])
  else .ok params

/-- Key present in an association list of strings. -/
def hasKey (k : String) (l : List (String × String)) : Bool :=
  l.any (fun p => p.1 == k)

/-- Auxiliary: the signer's output for a signature-required type with a
configured secret. -/
theorem build_music_params_signed_ok (hm : String → String → String)
    (token server req_type req_id : String)
    (hreq : MUSIC_SIGN_REQUIRED_TYPES.contains req_type = true) (htok : token ≠ "") :
    _build_music_params hm token server req_type req_id =
      .ok [("server", server), ("type", req_type), ("id", req_id),
           (MUSIC_SIGN_PARAM, hm token (server ++ req_type ++ req_id))] := by
  have hm' : req_type ∈ MUSIC_SIGN_REQUIRED_TYPES := by simpa using hreq
  simp [_build_music_params, hm', htok]

/-- C6: the signer builds `[server, type, id]` and appends a signature
parameter exactly when the type is in `{url, lrc, pic}`; the signature is
the HMAC-SHA1 hex digest of `server ++ type ++ id` under the configured
secret; `search` never gets a signature; and a required signature without
a configured secret raises a configuration error. -/
theorem build_music_params_spec (hm : String → String → String)
    (token server req_type req_id : String) :
    (MUSIC_SIGN_REQUIRED_TYPES.contains req_type = true → token ≠ "" →
      _build_music_params hm token server req_type req_id =
        .ok [("server", server), ("type", req_type), ("id", req_id),
             (MUSIC_SIGN_PARAM, hm token (server ++ req_type ++ req_id))]) ∧
    (MUSIC_SIGN_REQUIRED_TYPES.contains req_type = true → token = "" →
      _build_music_params hm token server req_type req_id =
        .error "缺少 MUSIC_API_TOKEN，无法为受保护接口生成签名") ∧
    (MUSIC_SIGN_REQUIRED_TYPES.contains req_type = false →
      _build_music_params hm token server req_type req_id =
        .ok [("server", server), ("type", req_type), ("id", req_id)]) ∧
    (MUSIC_SIGN_REQUIRED_TYPES.contains "search" = false) ∧
    (∀ ps, _build_music_params hm token server "search" req_id = .ok ps →
      hasKey MUSIC_SIGN_PARAM ps = false) := by
  refine ⟨?_, ?_, ?_, by decide, ?_⟩
  · exact build_music_params_signed_ok hm token server req_type req_id
  · intro hreq htok
    have hm' : req_type ∈ MUSIC_SIGN_REQUIRED_TYPES := by simpa using hreq
    simp [_build_music_params, hm', htok]
  · intro hreq
    have hm' : req_type ∉ MUSIC_SIGN_REQUIRED_TYPES := by simpa using hreq
    simp [_build_music_params, hm']
  · intro ps hps
    have hs : "search" ∉ MUSIC_SIGN_REQUIRED_TYPES := by decide
    simp only [_build_music_params] at hps
    rw [if_neg (by simpa using hs)] at hps
    cases hps
    simp [hasKey, MUSIC_SIGN_PARAM]

/-- C6 witness: the signer at concrete inputs, discharging each hypothesis
(a stand-in digest function witnesses where the HMAC output is placed). -/
theorem build_music_params_spec_witness :
    (MUSIC_SIGN_REQUIRED_TYPES.contains "url" = true ∧
     ("S" : String) ≠ "" ∧
     _build_music_params (fun k m => "hmac-sha1:" ++ k ++ ":" ++ m) "S" "netease" "url" "42" =
       .ok [("server", "netease"), ("type", "url"), ("id", "42"),
            ("auth", "hmac-sha1:S:neteaseurl42")]) ∧
    _build_music_params (fun k m => "hmac-sha1:" ++ k ++ ":" ++ m) "" "netease" "url" "42" =
      .error "缺少 MUSIC_API_TOKEN，无法为受保护接口生成签名" ∧
    _build_music_params (fun k m => "hmac-sha1:" ++ k ++ ":" ++ m) "S" "netease" "search" "42" =
      .ok [("server", "netease"), ("type", "search"), ("id", "42")] := by
  refine ⟨⟨by decide, by decide, ?_⟩, ?_, ?_⟩
  · exact ((build_music_params_spec (fun k m => "hmac-sha1:" ++ k ++ ":" ++ m)
      "S" "netease" "url" "42").1 (by decide) (by decide)).trans (by decide)
  · exact ((build_music_params_spec (fun k m => "hmac-sha1:" ++ k ++ ":" ++ m)
      "" "netease" "url" "42").2.1 (by decide) rfl)
  · exact ((build_music_params_spec (fun k m => "hmac-sha1:" ++ k ++ ":" ++ m)
      "S" "netease" "search" "42").2.2.1 (by decide))

/-! ### Upstream HTTP responses -/

/-- One upstream HTTP response, as observed by the source: the status
code, the `location` header when present, the outcome of JSON-decoding
the body (`none` = decode exception) and the raw body text. -/
structure HttpResponse where
  status : Nat
  location : Option String
  body : Option JVal
  text : String

/-- Redirect statuses handled by `_fetch_song_url`. -/
def isRedirectStatus (s : Nat) : Bool :=
  s == 301 || s == 302 || s == 303 || s == 307 || s == 308

/-! ### `_fetch_song_url` -/

/-- `_fetch_song_url(song_id)`.  `resp` is the upstream's response to the
signed `type=url` request (`none` = transport exception, caught by the
source and turned into the empty string, as is a raised `RuntimeError`
from `_build_music_params`). -/
def _fetch_song_url (hm : String → String → String) (token song_id : String)
    (resp : Option HttpResponse) : String :=
  match _build_music_params hm token "netease" "url" song_id with
  | .error _ => ""
  | .ok _ =>
    match resp with
    | none => ""
    | some r =>
      if isRedirectStatus r.status then
        match r.location with
        | some location => if location ≠ "" then pyStrip location else ""
        | none => ""
      else if r.status ≠ 200 then ""
      else
        match r.body with
        | none => ""
        | some (.jstr s) => pyStrip s
        | some (.jlist (first :: _)) =>
          match first with
          | .jstr s => pyStrip s
          | .jobj fs => pyStrip (pyStr ((pyGet fs "url").getD (.jstr "")))
          | _ => ""
        | some _ => ""

/-- C7: for every upstream response to the play-URL lookup: a redirect
status with a nonempty Location header yields the trimmed Location; a
redirect without one yields the empty string; a 200 status yields the URL
extracted from a bare-string body, from the first element of a list of
strings, or from the `url` field of the first element of a list of
objects; and any other status yields the empty string. -/
theorem fetch_song_url_spec (hm : String → String → String) (token song_id : String)
    (r : HttpResponse) (htok : token ≠ "") :
    (isRedirectStatus r.status = true → ∀ location, r.location = some location →
      location ≠ "" → _fetch_song_url hm token song_id (some r) = pyStrip location) ∧
    (isRedirectStatus r.status = true → (r.location = none ∨ r.location = some "") →
      _fetch_song_url hm token song_id (some r) = "") ∧
    (r.status = 200 → ∀ s, r.body = some (.jstr s) →
      _fetch_song_url hm token song_id (some r) = pyStrip s) ∧
    (r.status = 200 → ∀ s rest, r.body = some (.jlist (.jstr s :: rest)) →
      _fetch_song_url hm token song_id (some r) = pyStrip s) ∧
    (r.status = 200 → ∀ fs rest, r.body = some (.jlist (.jobj fs :: rest)) →
      _fetch_song_url hm token song_id (some r) =
        pyStrip (pyStr ((pyGet fs "url").getD (.jstr "")))) ∧
    (isRedirectStatus r.status = false → r.status ≠ 200 →
      _fetch_song_url hm token song_id (some r) = "") := by
  have hparams : _build_music_params hm token "netease" "url" song_id =
      .ok [("server", "netease"), ("type", "url"), ("id", song_id),
           (MUSIC_SIGN_PARAM, hm token ("netease" ++ "url" ++ song_id))] :=
    build_music_params_signed_ok hm token "netease" "url" song_id (by decide) htok
  refine ⟨?_, ?_, ?_, ?_, ?_, ?_⟩
  · intro hred location hloc hne
    simp [_fetch_song_url, hparams, hred, hloc, hne]
  · intro hred hloc
    rcases hloc with h | h <;> simp [_fetch_song_url, hparams, hred, h]
  · intro hstatus s hbody
    simp [_fetch_song_url, hparams, hstatus, hbody,
      (by decide : isRedirectStatus 200 = false)]
  · intro hstatus s rest hbody
    simp [_fetch_song_url, hparams, hstatus, hbody,
      (by decide : isRedirectStatus 200 = false)]
  · intro hstatus fs rest hbody
    simp [_fetch_song_url, hparams, hstatus, hbody,
      (by decide : isRedirectStatus 200 = false)]
  · intro hred h200
    simp [_fetch_song_url, hparams, hred, h200]

/-- C7 witness: the play-URL response interpretation at concrete
responses (a 302 with a Location header, and a 200 with a list-of-objects
body). -/
theorem fetch_song_url_spec_witness :
    ("tk" : String) ≠ "" ∧
    _fetch_song_url (fun _ _ => "H") "tk" "10"
      (some ⟨302, some " https://cdn/x.mp3 ", none, ""⟩) = "https://cdn/x.mp3" ∧
    _fetch_song_url (fun _ _ => "H") "tk" "10"
      (some ⟨200, none, some (.jlist [.jobj [("url", .jstr "https://cdn/y.mp3")]]), ""⟩) =
      "https://cdn/y.mp3" := by
  refine ⟨by decide, ?_, ?_⟩
  · exact ((fetch_song_url_spec (fun _ _ => "H") "tk" "10"
      ⟨302, some " https://cdn/x.mp3 ", none, ""⟩ (by decide)).1 (by decide)
      " https://cdn/x.mp3 " rfl (by decide)).trans (by decide)
  · exact ((fetch_song_url_spec (fun _ _ => "H") "tk" "10"
      ⟨200, none, some (.jlist [.jobj [("url", .jstr "https://cdn/y.mp3")]]), ""⟩
      (by decide)).2.2.2.2.1 rfl [("url", .jstr "https://cdn/y.mp3")] [] rfl).trans (by decide)

/-! ### `_fetch_song_lyric` -/

/-- The `lyric`-or-`lrc` field extraction `str(first.get("lyric") or
first.get("lrc") or "")` applied to a decoded JSON object. -/
def lyricFieldOf (fs : List (String × JVal)) : String :=
  pyStr (pyOrJ ((pyGet fs "lyric").getD .jnull)
    (pyOrJ ((pyGet fs "lrc").getD .jnull) (.jstr "")))

/-- `_fetch_song_lyric(song_id)`.  `resp` is the upstream's response to
the signed `type=lrc` request; `resp.body` is the outcome of
`json.loads` on the stripped body text (`none` = `JSONDecodeError`). -/
def _fetch_song_lyric (hm : String → String → String) (token song_id : String)
    (resp : Option HttpResponse) : String :=
  match _build_music_params hm token "netease" "lrc" song_id with
  | .error _ => ""
  | .ok _ =>
    match resp with
    | none => ""
    | some r =>
      if r.status ≠ 200 then ""
      else
        let raw_text := pyStrip r.text
        if raw_text = "" then ""
        else
          match r.body with
          | none => raw_text
          | some data =>
            match data with
            | .jstr s => pyStrip s
            | .jlist (first :: _) =>
              (match first with
               | .jstr s => pyStrip s
               | .jobj fs => pyStrip (lyricFieldOf fs)
               | _ => raw_text)
            | .jobj fs => pyStrip (lyricFieldOf fs)
            | _ => raw_text

/-- JSON shapes for which the 200-status lyric body interpretation falls
back to the raw trimmed text: null, booleans, numbers, empty lists, and
lists whose first element is neither a string nor an object. -/
def lyricFallbackShape : JVal → Bool
  | .jstr _ => false
  | .jobj _ => false
  | .jlist [] => true
  | .jlist (first :: _) =>
    match first with
    | .jstr _ => false
    | .jobj _ => false
    | _ => true
  | _ => true

/-- C8 counterexample: the claim predicts that a JSON object without a
`lyric` or `lrc` field is an unresolvable shape and therefore yields the
raw trimmed body; on the 200-response with body `{"a": 1}` the code
instead returns the empty string (the stringified empty fallback of the
field extraction). -/
theorem fetch_song_lyric_counterexample :
    _fetch_song_lyric (fun _ _ => "H") "tk" "7"
      (some ⟨200, none, some (.jobj [("a", .jnum 1)]), "\x7b\"a\": 1\x7d"⟩) = "" ∧
    pyStrip "\x7b\"a\": 1\x7d" = "\x7b\"a\": 1\x7d" ∧
    ("" : String) ≠ "\x7b\"a\": 1\x7d" := by
  refine ⟨?_, by decide, by decide⟩
  decide

/-- C8 amended: for every 200-status lyric response body: a JSON decode
failure returns the raw trimmed body; a string yields itself stripped; a
nonempty list yields its first element (stripped string, or the
`lyric`/`lrc` field of an object, empty when both are absent); an object
yields its `lyric`/`lrc` field (empty when both are absent, rather than
the raw body); and only null, booleans, numbers, empty lists and lists
whose first element is neither a string nor an object fall back to the
raw trimmed body.  An empty trimmed body returns the empty string before
any decoding. -/
theorem fetch_song_lyric_amended (hm : String → String → String)
    (token song_id : String) (r : HttpResponse)
    (htok : token ≠ "") (h200 : r.status = 200) :
    (pyStrip r.text = "" → _fetch_song_lyric hm token song_id (some r) = "") ∧
    (pyStrip r.text ≠ "" → r.body = none →
      _fetch_song_lyric hm token song_id (some r) = pyStrip r.text) ∧
    (pyStrip r.text ≠ "" → ∀ s, r.body = some (.jstr s) →
      _fetch_song_lyric hm token song_id (some r) = pyStrip s) ∧
    (pyStrip r.text ≠ "" → ∀ s rest, r.body = some (.jlist (.jstr s :: rest)) →
      _fetch_song_lyric hm token song_id (some r) = pyStrip s) ∧
    (pyStrip r.text ≠ "" → ∀ fs rest, r.body = some (.jlist (.jobj fs :: rest)) →
      _fetch_song_lyric hm token song_id (some r) = pyStrip (lyricFieldOf fs)) ∧
    (pyStrip r.text ≠ "" → ∀ fs, r.body = some (.jobj fs) →
      _fetch_song_lyric hm token song_id (some r) = pyStrip (lyricFieldOf fs)) ∧
    (pyStrip r.text ≠ "" → ∀ v, r.body = some v → lyricFallbackShape v = true →
      _fetch_song_lyric hm token song_id (some r) = pyStrip r.text) := by
  have hparams : _build_music_params hm token "netease" "lrc" song_id =
      .ok [("server", "netease"), ("type", "lrc"), ("id", song_id),
           (MUSIC_SIGN_PARAM, hm token ("netease" ++ "lrc" ++ song_id))] :=
    build_music_params_signed_ok hm token "netease" "lrc" song_id (by decide) htok
  refine ⟨?_, ?_, ?_, ?_, ?_, ?_, ?_⟩
  · intro hraw
    simp [_fetch_song_lyric, hparams, h200, hraw]
  · intro hraw hbody
    simp [_fetch_song_lyric, hparams, h200, hraw, hbody]
  · intro hraw s hbody
    simp [_fetch_song_lyric, hparams, h200, hraw, hbody]
  · intro hraw s rest hbody
    simp [_fetch_song_lyric, hparams, h200, hraw, hbody]
  · intro hraw fs rest hbody
    simp [_fetch_song_lyric, hparams, h200, hraw, hbody]
  · intro hraw fs hbody
    simp [_fetch_song_lyric, hparams, h200, hraw, hbody]
  · intro hraw v hbody hshape
    match v, hshape with
    | .jnull, _ => simp [_fetch_song_lyric, hparams, h200, hraw, hbody]
    | .jbool b, _ => simp [_fetch_song_lyric, hparams, h200, hraw, hbody]
    | .jnum n, _ => simp [_fetch_song_lyric, hparams, h200, hraw, hbody]
    | .jlist [], _ => simp [_fetch_song_lyric, hparams, h200, hraw, hbody]
    | .jlist (.jnull :: rest), _ =>
      simp [_fetch_song_lyric, hparams, h200, hraw, hbody]
    | .jlist (.jbool b :: rest), _ =>
      simp [_fetch_song_lyric, hparams, h200, hraw, hbody]
    | .jlist (.jnum n :: rest), _ =>
      simp [_fetch_song_lyric, hparams, h200, hraw, hbody]
    | .jlist (.jlist xs :: rest), _ =>
      simp [_fetch_song_lyric, hparams, h200, hraw, hbody]

/-- C8 amended witness: the lyric body interpretation at concrete
responses (a plain-LRC body that is not JSON, and a JSON object carrying
an `lrc` field). -/
theorem fetch_song_lyric_amended_witness :
    (("tk" : String) ≠ "" ∧
     pyStrip "[00:01.00]hello" ≠ "" ∧
     _fetch_song_lyric (fun _ _ => "H") "tk" "7"
       (some ⟨200, none, none, "[00:01.00]hello"⟩) = "[00:01.00]hello") ∧
    _fetch_song_lyric (fun _ _ => "H") "tk" "7"
      (some ⟨200, none, some (.jobj [("lrc", .jstr "[00:02.00]world")]),
        "\x7b\"lrc\": \"[00:02.00]world\"\x7d"⟩) = "[00:02.00]world" := by
  refine ⟨⟨by decide, by decide, ?_⟩, ?_⟩
  · exact ((fetch_song_lyric_amended (fun _ _ => "H") "tk" "7"
      ⟨200, none, none, "[00:01.00]hello"⟩ (by decide) rfl).2.1 (by decide) rfl).trans
      (by decide)
  · exact ((fetch_song_lyric_amended (fun _ _ => "H") "tk" "7"
      ⟨200, none, some (.jobj [("lrc", .jstr "[00:02.00]world")]),
        "\x7b\"lrc\": \"[00:02.00]world\"\x7d"⟩ (by decide) rfl).2.2.2.2.2.1
      (by decide) [("lrc", .jstr "[00:02.00]world")] rfl).trans (by decide)

/-! ### `_resolve_final_url` (the redirect resolver) -/

/-- Outcome of a HEAD or streamed-GET request issued by the resolver:
`none` models a raised transport exception (caught by the source);
`some (status, finalUrl)` models a completed request, where `finalUrl` is
`str(resp.url)`, the URL after following redirects. -/
abbrev RequestOutcome := Option (Nat × String)

/-- The HEAD outcome counts as a success when the status is 200 or 206. -/
def headSucceeds : RequestOutcome → Bool
  | some (s, _) => s == 200 || s == 206
  | none => false

/-- The streamed-GET outcome counts as a success when the status is 200. -/
def getSucceeds : RequestOutcome → Bool
  | some (s, _) => s == 200
  | none => false

/-- `_resolve_final_url(url)`.  Returns the result string together with
two instrumentation flags recording whether the HEAD request and the
streamed GET request were issued.  The `error` case models the
`ValueError` escaping from `_normalize_music_url`, which is evaluated
before either `try` block. -/
def _resolve_final_url (head get : RequestOutcome) (url : String) :
    Except String (String × Bool × Bool) :=
  match _normalize_music_url url with
  | .error e => .error e
  | .ok normalized_url =>
    if normalized_url = "" then .ok ("", false, false)
    else
      let getTier : String × Bool × Bool :=
        match get with
        | some (status, finalUrl) =>
          if status = 200 then (finalUrl, true, true) else (normalized_url, true, true)
        | none => (normalized_url, true, true)
      match head with
      | some (status, finalUrl) =>
        if status = 200 ∨ status = 206 then .ok (finalUrl, true, false)
        else .ok getTier
      | none => .ok getTier

/-- C1 counterexample: on the input URL `//[` the resolver raises (the
normalizer's `ValueError` escapes, since normalization happens before
either `try` block), even when a HEAD request would have yielded 200; the
claim instead asserts that the operation never fails with an error. -/
theorem resolve_final_url_counterexample :
    _resolve_final_url (some (200, "https://cdn/a.mp3")) none "//[" =
      .error "Invalid IPv6 URL" := by
  decide

/-- C1 amended: for every input URL on which normalization succeeds, the
resolver follows the three-tier strategy: a HEAD request is issued exactly
when the normalized URL is nonempty; when the HEAD yields 200 or 206 the
result is the HEAD's final URL and no GET is issued; otherwise a streamed
GET is issued, and when it yields 200 the result is the GET's final URL;
otherwise the result is the normalized URL unchanged; and the operation
never fails. -/
theorem resolve_final_url_amended (url n : String) (head get : RequestOutcome)
    (hn : _normalize_music_url url = .ok n) :
    ∃ res hIss gIss,
      _resolve_final_url head get url = .ok (res, hIss, gIss) ∧
      hIss = (n != "") ∧
      gIss = ((n != "") && !headSucceeds head) ∧
      (hIss = true → headSucceeds head = true →
        ∀ s f, head = some (s, f) → res = f ∧ gIss = false) ∧
      (gIss = true → ∀ f, get = some (200, f) → res = f) ∧
      ((hIss = true → headSucceeds head = false) →
       (gIss = true → getSucceeds get = false) → res = n) := by
  by_cases hempty : n = ""
  · subst hempty
    refine ⟨"", false, false, ?_, by simp, by simp, by simp, by simp, by simp⟩
    simp [_resolve_final_url, hn]
  · match hhead : head with
    | some (s, f) =>
      by_cases hs : s = 200 ∨ s = 206
      · refine ⟨f, true, false, ?_, ?_, ?_, ?_, by simp, ?_⟩
        · simp [_resolve_final_url, hn, hempty, hs]
        · simp [hempty]
        · simp [headSucceeds]
          rcases hs with h | h <;> simp [h]
        · intro _ _ s' f' hsf
          cases hsf
          exact ⟨rfl, rfl⟩
        · intro hcontra _
          have : headSucceeds (some (s, f)) = true := by
            simp [headSucceeds]
            rcases hs with h | h <;> simp [h]
          rw [hcontra rfl] at this
          cases this
      · have hfail : headSucceeds (some (s, f)) = false := by
          simp [headSucceeds]
          constructor
          · intro h; exact absurd (Or.inl h) hs
          · intro h; exact absurd (Or.inr h) hs
        match hget : get with
        | some (s2, g) =>
          by_cases hs2 : s2 = 200
          · subst hs2
            refine ⟨g, true, true, ?_, by simp [hempty], by simp [hempty, hfail], ?_, ?_, ?_⟩
            · simp [_resolve_final_url, hn, hempty, hs]
            · intro _ hcontra
              rw [hfail] at hcontra; cases hcontra
            · intro _ f' hf'
              cases hf'
              rfl
            · intro _ hcontra
              have := hcontra rfl
              simp [getSucceeds] at this
          · refine ⟨n, true, true, ?_, by simp [hempty], by simp [hempty, hfail], ?_, ?_, ?_⟩
            · simp [_resolve_final_url, hn, hempty, hs, hs2]
            · intro _ hcontra
              rw [hfail] at hcontra; cases hcontra
            · intro _ f' hf'
              cases hf'
              exact absurd rfl hs2
            · intro _ _
              rfl
        | none =>
          refine ⟨n, true, true, ?_, by simp [hempty], by simp [hempty, hfail], ?_, ?_, ?_⟩
          · simp [_resolve_final_url, hn, hempty, hs]
          · intro _ hcontra
            rw [hfail] at hcontra; cases hcontra
          · intro _ f' hf'
            cases hf'
          · intro _ _
            rfl
    | none =>
      match hget : get with
      | some (s2, g) =>
        by_cases hs2 : s2 = 200
        · subst hs2
          refine ⟨g, true, true, ?_, by simp [hempty], by simp [hempty, headSucceeds], ?_, ?_, ?_⟩
          · simp [_resolve_final_url, hn, hempty]
          · intro _ hcontra
            simp [headSucceeds] at hcontra
          · intro _ f' hf'
            cases hf'
            rfl
          · intro _ hcontra
            have := hcontra rfl
            simp [getSucceeds] at this
        · refine ⟨n, true, true, ?_, by simp [hempty], by simp [hempty, headSucceeds], ?_, ?_, ?_⟩
          · simp [_resolve_final_url, hn, hempty, hs2]
          · intro _ hcontra
            simp [headSucceeds] at hcontra
          · intro _ f' hf'
            cases hf'
            exact absurd rfl hs2
          · intro _ _
            rfl
      | none =>
        refine ⟨n, true, true, ?_, by simp [hempty], by simp [hempty, headSucceeds], ?_, ?_, ?_⟩
        · simp [_resolve_final_url, hn, hempty]
        · intro _ hcontra
          simp [headSucceeds] at hcontra
        · intro _ f' hf'
          cases hf'
        · intro _ _
          rfl

/-- C1 amended witness: the three-tier resolver at concrete inputs — a
HEAD success, a HEAD failure with GET success, and both failing. -/
theorem resolve_final_url_amended_witness :
    _normalize_music_url "http://x/y" = .ok "http://x/y" ∧
    _resolve_final_url (some (200, "https://cdn/f.mp3")) none "http://x/y" =
      .ok ("https://cdn/f.mp3", true, false) ∧
    _resolve_final_url (some (405, "")) (some (200, "https://cdn/g.mp3")) "http://x/y" =
      .ok ("https://cdn/g.mp3", true, true) ∧
    _resolve_final_url none none "http://x/y" = .ok ("http://x/y", true, true) := by
  refine ⟨by decide, ?_, ?_, ?_⟩
  · obtain ⟨res, hIss, gIss, heq, h1, h2, h3, _, _⟩ :=
      resolve_final_url_amended "http://x/y" "http://x/y"
        (some (200, "https://cdn/f.mp3")) none (by decide)
    obtain ⟨hres, hg⟩ := h3 (by rw [h1]; decide) (by decide) 200 "https://cdn/f.mp3" rfl
    rw [heq, hres, hg, h1]
    decide
  · obtain ⟨res, hIss, gIss, heq, h1, h2, _, h4, _⟩ :=
      resolve_final_url_amended "http://x/y" "http://x/y"
        (some (405, "")) (some (200, "https://cdn/g.mp3")) (by decide)
    have hres := h4 (by rw [h2]; decide) "https://cdn/g.mp3" rfl
    rw [heq, hres, h1, h2]
    decide
  · obtain ⟨res, hIss, gIss, heq, h1, h2, _, _, h5⟩ :=
      resolve_final_url_amended "http://x/y" "http://x/y" none none (by decide)
    have hres := h5 (by intro _; decide) (by intro _; decide)
    rw [heq, hres, h1, h2]
    decide

/-! ### `urlencode` / `quote_plus` -/

/-- UTF-8 encoding of one character as byte values. -/
def utf8Bytes (c : Char) : List Nat :=
  let n := c.toNat
  if n < 0x80 then [n]
  else if n < 0x800 then [0xC0 + n / 64, 0x80 + n % 64]
  else if n < 0x10000 then
    [0xE0 + n / 4096, 0x80 + (n / 64) % 64, 0x80 + n % 64]
  else
    [0xF0 + n / 262144, 0x80 + (n / 4096) % 64, 0x80 + (n / 64) % 64, 0x80 + n % 64]

/-- Bytes never percent-encoded by `urllib.parse.quote`
(`_ALWAYS_SAFE`: ASCII letters, digits, and `_.-~`). -/
def isAlwaysSafeByte (b : Nat) : Bool :=
  (65 ≤ b && b ≤ 90) || (97 ≤ b && b ≤ 122) || (48 ≤ b && b ≤ 57) ||
    b == 95 || b == 46 || b == 45 || b == 126

/-- Uppercase hex digit. -/
def hexDigitUpper (n : Nat) : Char :=
  "0123456789ABCDEF".data.getD n '0'

/-- `quote(s, safe)` over the UTF-8 bytes of `s`; `keepSpace` keeps the
space byte unescaped (the `safe=' '` call made by `quote_plus`). -/
def quoteBytes (keepSpace : Bool) (bs : List Nat) : List Char :=
  bs.foldr
    (fun b acc =>
      if isAlwaysSafeByte b || (keepSpace && b == 32) then Char.ofNat b :: acc
      else '%' :: hexDigitUpper (b / 16) :: hexDigitUpper (b % 16) :: acc) []

/-- `urllib.parse.quote_plus(s, safe='')` (the form used by `urlencode`):
spaces become `+`, every other non-always-safe byte is percent-encoded. -/
def quote_plus (s : String) : String :=
  let bs := s.data.flatMap utf8Bytes
  if s.data.contains ' ' then
    String.mk ((quoteBytes true bs).map (fun c => if c = ' ' then '+' else c))
  else
    String.mk (quoteBytes false bs)

/-- `urllib.parse.urlencode(params)` over an insertion-ordered parameter
list. -/
def urlencode (params : List (String × String)) : String :=
  String.intercalate "&" (params.map (fun p => quote_plus p.1 ++ "=" ++ quote_plus p.2))

example : urlencode [("server", "netease"), ("type", "lrc"), ("id", "7"), ("auth", "HH")] =
    "server=netease&type=lrc&id=7&auth=HH" := by decide
example : urlencode [("a", "x y/z")] = "a=x+y%2Fz" := by decide

/-! ### `_build_lyric_url` -/

/-- Python truthiness of an optional string (`None` and `""` are falsy). -/
def truthyOptStr : Option String → Bool
  | none => false
  | some s => s != ""

/-- `_build_lyric_url(song_id, lrc)`: the `lrc` argument wins when
non-blank after stripping; otherwise a signed lyric-fetch URL is built
from the song id (a raised `RuntimeError` from the missing secret is
caught and yields the empty string). -/
def _build_lyric_url (hm : String → String → String) (token : String)
    (song_id : Option String) (lrc : String) : String :=
  if lrc ≠ "" ∧ pyStrip lrc ≠ "" then pyStrip lrc
  else if truthyOptStr song_id then
    match _build_music_params hm token "netease" "lrc" (song_id.getD "") with
    | .error _ => ""
    | .ok params => MUSIC_API_BASE_URL ++ "?" ++ urlencode params
  else ""

/-! ### `resolve_music_url` (the resolution orchestrator) -/

/-- The arguments of the `resolve_music_url` tool (with their source
defaults).  The `lyric` argument is part of the tool signature; the tool
body never reads it. -/
structure ResolveArgs where
  id : Option String := none
  song_id : Option String := none
  song_name : String := "未知歌曲"
  artist : String := "未知歌手"
  url : String := ""
  lrc : String := ""
  lyric : String := ""

/-- The environment of one `resolve_music_url` call: the configured
secret, the abstracted HMAC, the current search-result cache, and the
outcomes of the (at most) four network interactions the call can make. -/
structure ResolveEnv where
  hm : String → String → String
  token : String
  cache : List (String × SongEntry)
  urlResp : Option HttpResponse
  headResp : RequestOutcome
  getResp : RequestOutcome
  lyricResp : Option HttpResponse

/-- The structured result of a successful `resolve_music_url` call
(the returned JSON object, modelled structurally), together with
instrumentation flags recording whether the play-URL lookup and the
direct lyric fetch were performed. -/
structure ResolvedTrack where
  song_name : String
  artist : String
  final_url : String
  lyric_url : String
  has_lyric : Bool
  next_tool : String
  next_arguments : List (String × String)
  lyric_text : String
  fetch_url_issued : Bool
  lyric_fetch_issued : Bool
deriving Repr, DecidableEq

/-- Outcome of a `resolve_music_url` call: a raised exception escaping the
tool body, an early-returned failure message string, or the structured
JSON result. -/
inductive ResolveOutcome where
  | raised : String → ResolveOutcome
  | message : String → ResolveOutcome
  | resolved : ResolvedTrack → ResolveOutcome
deriving Repr, DecidableEq

/-- The `effective_lrc` computation of `resolve_music_url`: the caller's
`lrc`, replaced by the cached entry's `lrc` when the caller's is empty
and the cache holds the key. -/
def effectiveLrc (env : ResolveEnv) (lrc cache_key : String) : String :=
  if lrc = "" ∧ cache_key ≠ "" ∧ pyDictContains env.cache cache_key = true then
    match pyDictGet env.cache cache_key with
    | some cached => cached.lrc
    | none => lrc
  else lrc

/-- The lyric-determination block of `resolve_music_url` (the
`effective_lrc` / `lyric_url` / `lyric_text` computation): the caller's
`lrc`, then (when that is exactly empty) the cached search result's
`lrc`, then the constructed signed URL, then the direct lyric-text
fetch.  Returns (lyric URL, lyric text, whether the direct fetch was
performed). -/
def resolveLyricPart (env : ResolveEnv) (lrc : String)
    (resolved_song_id : Option String) : String × String × Bool :=
  let cache_key := if truthyOptStr resolved_song_id then resolved_song_id.getD "" else ""
  let effective_lrc := effectiveLrc env lrc cache_key
  let lyric_url := _build_lyric_url env.hm env.token resolved_song_id effective_lrc
  let lyric_fetch_issued := lyric_url = "" ∧ truthyOptStr resolved_song_id = true
  let lyric_text :=
    if lyric_fetch_issued then
      _fetch_song_lyric env.hm env.token (resolved_song_id.getD "") env.lyricResp
    else ""
  (lyric_url, lyric_text, decide lyric_fetch_issued)

/-- `resolve_music_url(id, song_id, song_name, artist, url, lrc, lyric)`.
Progress reporting and the `playback_state` update are side effects with
no bearing on the returned value and are not modelled. -/
def resolve_music_url (env : ResolveEnv) (args : ResolveArgs) : ResolveOutcome :=
  let resolved_song_id : Option String :=
    if truthyOptStr args.song_id then args.song_id else args.id
  if ¬ (truthyOptStr resolved_song_id = true) ∧ args.url = "" then
    .message "缺少歌曲信息，请至少传入 id/song_id 或 url"
  else
    match _normalize_music_url args.url with
    | .error e => .raised e
    | .ok source_url0 =>
      let fetchNeeded := source_url0 = "" ∧ truthyOptStr resolved_song_id = true
      let source_url :=
        if fetchNeeded then
          _fetch_song_url env.hm env.token (resolved_song_id.getD "") env.urlResp
        else source_url0
      if fetchNeeded ∧ source_url = "" then .message "查询播放地址失败，请稍后重试"
      else
        match _resolve_final_url env.headResp env.getResp source_url with
        | .error e => .raised e
        | .ok (final_url, _, _) =>
          let lyr := resolveLyricPart env args.lrc resolved_song_id
          let next_args := [("url", final_url), ("title", args.song_name), ("artist", args.artist)]
            ++ (if lyr.1 ≠ "" then [("lyric_url", lyr.1)]
                else if lyr.2.1 ≠ "" then [("lyric", lyr.2.1)] else [])
          .resolved
            { song_name := args.song_name
              artist := args.artist
              final_url := final_url
              lyric_url := lyr.1
              has_lyric := (lyr.1 != "") || (lyr.2.1 != "")
              next_tool := "self.music.play_url"
              next_arguments := next_args
              lyric_text := lyr.2.1
              fetch_url_issued := decide fetchNeeded
              lyric_fetch_issued := lyr.2.2 }

/-! ### C2: the lyric fallback chain -/

/-- C2 counterexample: the claim makes the caller-supplied lyric text the
first source of the chain, so with `lyric = "la la"` supplied and no
`lrc`, the result's lyric outcome should be that text; the tool body
never reads the `lyric` argument, and on this input it instead constructs
the signed lyric-fetch URL (token configured, empty cache), leaving the
lyric text empty. -/
theorem resolve_lyric_chain_counterexample :
    ¬ (∀ (env : ResolveEnv) (args : ResolveArgs) (r : ResolvedTrack),
        resolve_music_url env args = .resolved r →
        args.lrc = "" → args.lyric ≠ "" →
        r.lyric_url = "" ∧ r.lyric_text = args.lyric) := by
  intro h
  have hinst := h
    { hm := fun _ _ => "SIG", token := "tk", cache := [],
      urlResp := none, headResp := some (200, "https://cdn/x.mp3"), getResp := none,
      lyricResp := none }
    { id := some "7", song_id := none, song_name := "Song A", artist := "Artist A",
      url := "https://cdn/x.mp3", lrc := "", lyric := "la la" }
    { song_name := "Song A", artist := "Artist A",
      final_url := "https://cdn/x.mp3",
      lyric_url := "https://api.i-meto.com/meting/api?server=netease&type=lrc&id=7&auth=SIG",
      has_lyric := true, next_tool := "self.music.play_url",
      next_arguments := [("url", "https://cdn/x.mp3"), ("title", "Song A"),
        ("artist", "Artist A"),
        ("lyric_url", "https://api.i-meto.com/meting/api?server=netease&type=lrc&id=7&auth=SIG")],
      lyric_text := "", fetch_url_issued := false, lyric_fetch_issued := false }
    (by decide) rfl (by decide)
  exact absurd hinst.1 (by decide)

/-- C2 amended: the lyric chain the code implements, written as ordered
tiers.  Tier 1 is the caller's `lrc` argument (winning when non-blank
after trimming); tier 2, consulted only when the `lrc` argument is
exactly empty, is the cached search result's `lrc` for the resolved id;
tier 3 is the constructed signed lyric-fetch URL (possible only with a
configured secret); tier 4 is the direct lyric-text fetch by id.  The
caller's `lyric` argument takes part in no tier.  The result is the pair
(lyric URL, lyric text), at most one of which is nonempty. -/
def lyricCandidate (env : ResolveEnv) (lrc : String) (sid : Option String) : String :=
  if lrc = "" then
    match (if truthyOptStr sid then pyDictGet env.cache (sid.getD "") else none) with
    | some cached => cached.lrc
    | none => ""
  else lrc

/-- C2 amended chain, tiers 1 and 2 merged into `lyricCandidate` and
tiers 3 and 4 by song id. -/
def lyricChainAmended (env : ResolveEnv) (lrc : String) (sid : Option String) :
    String × String :=
  if pyStrip (lyricCandidate env lrc sid) ≠ "" ∧ lyricCandidate env lrc sid ≠ "" then
    (pyStrip (lyricCandidate env lrc sid), "")
  else if truthyOptStr sid then
    match _build_music_params env.hm env.token "netease" "lrc" (sid.getD "") with
    | .ok params => (MUSIC_API_BASE_URL ++ "?" ++ urlencode params, "")
    | .error _ => ("", _fetch_song_lyric env.hm env.token (sid.getD "") env.lyricResp)
  else ("", "")

/-- Auxiliary: a Python dict membership test succeeding means the lookup
yields a value. -/
theorem pyDictContains_get {α : Type} (m : List (String × α)) (k : String) :
    pyDictContains m k = true → ∃ v, pyDictGet m k = some v := by
  induction m with
  | nil => intro h; cases h
  | cons p rest ih =>
    intro h
    by_cases hk : (p.1 == k) = true
    · exact ⟨p.2, by simp [pyDictGet, List.find?_cons, hk]⟩
    · have hk' : (p.1 == k) = false := by simpa using hk
      simp only [pyDictContains, List.any_cons, hk', Bool.false_or] at h
      obtain ⟨v, hv⟩ := ih h
      exact ⟨v, by simpa [pyDictGet, List.find?_cons, hk'] using hv⟩

/-- Auxiliary: a truthy optional string has a nonempty underlying value. -/
theorem truthyOptStr_getD_ne (sid : Option String) (h : truthyOptStr sid = true) :
    sid.getD "" ≠ "" := by
  cases sid with
  | none => cases h
  | some s =>
    simp only [truthyOptStr, bne_iff_ne, ne_eq] at h
    simpa using h

/-- Auxiliary: the constructed lyric-fetch URL is never the empty string. -/
theorem base_query_ne_empty (q : String) : MUSIC_API_BASE_URL ++ "?" ++ q ≠ "" := by
  intro h
  have hlen : (MUSIC_API_BASE_URL ++ "?" ++ q).length = 0 := by rw [h]; rfl
  rw [String.length_append, String.length_append] at hlen
  have hbase : MUSIC_API_BASE_URL.length = 33 := by decide
  omega

/-- Auxiliary: `_build_lyric_url` followed by the conditional direct
lyric fetch equals the last three tiers of the chain. -/
theorem buildFetch_eq_chain (env : ResolveEnv) (eff : String) (sid : Option String) :
    (_build_lyric_url env.hm env.token sid eff,
     if _build_lyric_url env.hm env.token sid eff = "" ∧ truthyOptStr sid = true then
       _fetch_song_lyric env.hm env.token (sid.getD "") env.lyricResp
     else "") =
    (if pyStrip eff ≠ "" ∧ eff ≠ "" then (pyStrip eff, "")
     else if truthyOptStr sid then
       match _build_music_params env.hm env.token "netease" "lrc" (sid.getD "") with
       | .ok params => (MUSIC_API_BASE_URL ++ "?" ++ urlencode params, "")
       | .error _ => ("", _fetch_song_lyric env.hm env.token (sid.getD "") env.lyricResp)
     else ("", "")) := by
  unfold _build_lyric_url
  by_cases hA : eff ≠ "" ∧ pyStrip eff ≠ ""
  · rw [if_pos hA]
    rw [if_neg (fun hc => hA.2 hc.1)]
    rw [if_pos ⟨hA.2, hA.1⟩]
  · rw [if_neg hA]
    rw [if_neg (fun (hc : pyStrip eff ≠ "" ∧ eff ≠ "") => hA ⟨hc.2, hc.1⟩)]
    by_cases hT : truthyOptStr sid = true
    · rw [if_pos hT]
      rw [if_pos hT]
      cases hb : _build_music_params env.hm env.token "netease" "lrc" (sid.getD "") with
      | error e =>
        simp only [hb]
        rw [if_pos ⟨trivial, hT⟩]
      | ok params =>
        simp only [hb]
        rw [if_neg (fun hc => base_query_ne_empty (urlencode params) hc.1)]
    · rw [if_neg hT]
      rw [if_neg hT]
      rw [if_neg (fun hc => hT hc.2)]

/-- Auxiliary: the chain's merged tiers 1 and 2 compute the
orchestrator's `effective_lrc`. -/
theorem lyricCandidate_eq_effective (env : ResolveEnv) (lrc : String) (sid : Option String) :
    lyricCandidate env lrc sid =
      effectiveLrc env lrc (if truthyOptStr sid then sid.getD "" else "") := by
  unfold lyricCandidate effectiveLrc
  by_cases hsid : truthyOptStr sid = true
  · rw [if_pos hsid, if_pos hsid]
    by_cases hlrc : lrc = ""
    · subst hlrc
      by_cases hcont : pyDictContains env.cache (sid.getD "") = true
      · obtain ⟨v, hv⟩ := pyDictContains_get env.cache (sid.getD "") hcont
        rw [hv, if_pos rfl, if_pos ⟨rfl, truthyOptStr_getD_ne sid hsid, hcont⟩]
      · have hcont' : pyDictContains env.cache (sid.getD "") = false := by simpa using hcont
        have hget : pyDictGet env.cache (sid.getD "") = none :=
          pyDictGet_absent env.cache (sid.getD "") hcont'
        rw [hget, if_pos rfl, if_neg (fun hc => hcont hc.2.2)]
    · rw [if_neg hlrc, if_neg (fun hc => hlrc hc.1)]
  · rw [if_neg hsid, if_neg hsid]
    by_cases hlrc : lrc = ""
    · subst hlrc
      rw [if_pos rfl, if_neg (fun hc => hc.2.1 rfl)]
    · rw [if_neg hlrc, if_neg (fun hc => hlrc hc.1)]

/-- Auxiliary: the lyric block of the orchestrator computes exactly the
amended chain. -/
theorem resolveLyricPart_eq_chain (env : ResolveEnv) (lrc : String) (sid : Option String) :
    ((resolveLyricPart env lrc sid).1, (resolveLyricPart env lrc sid).2.1) =
      lyricChainAmended env lrc sid := by
  have hp1 : (resolveLyricPart env lrc sid).1 =
      _build_lyric_url env.hm env.token sid
        (effectiveLrc env lrc (if truthyOptStr sid then sid.getD "" else "")) := rfl
  have hp2 : (resolveLyricPart env lrc sid).2.1 =
      (if _build_lyric_url env.hm env.token sid
          (effectiveLrc env lrc (if truthyOptStr sid then sid.getD "" else "")) = "" ∧
          truthyOptStr sid = true then
        _fetch_song_lyric env.hm env.token (sid.getD "") env.lyricResp
      else "") := rfl
  rw [hp1, hp2,
    buildFetch_eq_chain env
      (effectiveLrc env lrc (if truthyOptStr sid then sid.getD "" else "")) sid]
  unfold lyricChainAmended
  rw [lyricCandidate_eq_effective env lrc sid]

/-- Auxiliary: every successful resolution carries the lyric block's
outputs in its `lyric_url`, `lyric_text` and `lyric_fetch_issued`
fields, with the orchestrator's resolved song id. -/
theorem resolve_resolved_lyric_fields (env : ResolveEnv) (args : ResolveArgs)
    (r : ResolvedTrack) (h : resolve_music_url env args = .resolved r) :
    r.lyric_url = (resolveLyricPart env args.lrc
        (if truthyOptStr args.song_id then args.song_id else args.id)).1 ∧
    r.lyric_text = (resolveLyricPart env args.lrc
        (if truthyOptStr args.song_id then args.song_id else args.id)).2.1 ∧
    r.lyric_fetch_issued = (resolveLyricPart env args.lrc
        (if truthyOptStr args.song_id then args.song_id else args.id)).2.2 := by
  simp only [resolve_music_url] at h
  split at h
  · rename_i hsid
    rw [if_pos hsid]
    repeat' split at h
    all_goals cases h
    all_goals exact ⟨rfl, rfl, rfl⟩
  · rename_i hsid
    rw [if_neg hsid]
    repeat' split at h
    all_goals cases h
    all_goals exact ⟨rfl, rfl, rfl⟩

/-- C2 amended (theorem): every successful resolution's lyric URL and
lyric text are exactly the outcome of the amended four-tier chain, for
the resolved song id (`song_id or id`). -/
theorem resolve_lyric_chain_amended (env : ResolveEnv) (args : ResolveArgs)
    (r : ResolvedTrack) (h : resolve_music_url env args = .resolved r) :
    (r.lyric_url, r.lyric_text) = lyricChainAmended env args.lrc
      (if truthyOptStr args.song_id then args.song_id else args.id) := by
  obtain ⟨h1, h2, _⟩ := resolve_resolved_lyric_fields env args r h
  rw [h1, h2]
  exact resolveLyricPart_eq_chain env args.lrc
    (if truthyOptStr args.song_id then args.song_id else args.id)

/-- C2 amended witness: a resolution whose lyric URL comes from tier 2
(the cached search result), evaluated concretely. -/
theorem resolve_lyric_chain_amended_witness :
    resolve_music_url
      { hm := fun _ _ => "SIG", token := "", cache :=
          [("9", ⟨"9", "S", "A", "https://u/9.mp3", "", "https://l/9.lrc"⟩)],
        urlResp := none, headResp := none, getResp := none, lyricResp := none }
      { id := some "9", song_id := none, song_name := "S", artist := "A",
        url := "http://x/y", lrc := "", lyric := "" } =
      .resolved
        { song_name := "S", artist := "A", final_url := "http://x/y",
          lyric_url := "https://l/9.lrc", has_lyric := true,
          next_tool := "self.music.play_url",
          next_arguments := [("url", "http://x/y"), ("title", "S"), ("artist", "A"),
            ("lyric_url", "https://l/9.lrc")],
          lyric_text := "", fetch_url_issued := false, lyric_fetch_issued := false } ∧
    ("https://l/9.lrc", "") = lyricChainAmended
      { hm := fun _ _ => "SIG", token := "", cache :=
          [("9", ⟨"9", "S", "A", "https://u/9.mp3", "", "https://l/9.lrc"⟩)],
        urlResp := none, headResp := none, getResp := none, lyricResp := none }
      "" (if truthyOptStr none then none else some "9") := by
  constructor
  · decide
  · exact resolve_lyric_chain_amended
      { hm := fun _ _ => "SIG", token := "", cache :=
          [("9", ⟨"9", "S", "A", "https://u/9.mp3", "", "https://l/9.lrc"⟩)],
        urlResp := none, headResp := none, getResp := none, lyricResp := none }
      { id := some "9", song_id := none, song_name := "S", artist := "A",
        url := "http://x/y", lrc := "", lyric := "" }
      { song_name := "S", artist := "A", final_url := "http://x/y",
        lyric_url := "https://l/9.lrc", has_lyric := true,
        next_tool := "self.music.play_url",
        next_arguments := [("url", "http://x/y"), ("title", "S"), ("artist", "A"),
          ("lyric_url", "https://l/9.lrc")],
        lyric_text := "", fetch_url_issued := false, lyric_fetch_issued := false }
      (by decide)

/-! ### C3: at most one lyric field -/

/-- Auxiliary: when the lyric block produces a nonempty lyric URL, the
direct lyric fetch is not performed and the lyric text is empty. -/
theorem resolveLyricPart_fields (env : ResolveEnv) (lrc : String) (sid : Option String) :
    (resolveLyricPart env lrc sid).1 ≠ "" →
    (resolveLyricPart env lrc sid).2.1 = "" ∧ (resolveLyricPart env lrc sid).2.2 = false := by
  intro h
  refine ⟨?_, ?_⟩
  · show (if (resolveLyricPart env lrc sid).1 = "" ∧ truthyOptStr sid = true then
        _fetch_song_lyric env.hm env.token (sid.getD "") env.lyricResp else "") = ""
    exact if_neg (fun hc => h hc.1)
  · show decide ((resolveLyricPart env lrc sid).1 = "" ∧ truthyOptStr sid = true) = false
    exact decide_eq_false (fun hc => h hc.1)

/-- C3: every successful resolution populates at most one of the lyric
URL and the lyric text: when the result carries a nonempty `lyric_url`,
no lyric text is fetched or attached; and the `next_arguments` payload
always carries the keys `url`, `title` and `artist` plus at most one of
`lyric_url` or `lyric`, never both. -/
theorem resolve_result_invariant (env : ResolveEnv) (args : ResolveArgs)
    (r : ResolvedTrack) (h : resolve_music_url env args = .resolved r) :
    (r.lyric_url ≠ "" → r.lyric_fetch_issued = false ∧ r.lyric_text = "" ∧
      hasKey "lyric" r.next_arguments = false) ∧
    hasKey "url" r.next_arguments = true ∧
    hasKey "title" r.next_arguments = true ∧
    hasKey "artist" r.next_arguments = true ∧
    ¬ (hasKey "lyric_url" r.next_arguments = true ∧
       hasKey "lyric" r.next_arguments = true) := by
  simp only [resolve_music_url] at h
  repeat' split at h
  all_goals cases h
  all_goals refine ⟨?_, ?_, ?_, ?_, ?_⟩
  all_goals try (simp [hasKey] <;> decide)
  all_goals intro hne
  all_goals refine ⟨(resolveLyricPart_fields _ _ _ hne).2,
    (resolveLyricPart_fields _ _ _ hne).1, ?_⟩
  all_goals first
    | (simp [hasKey] <;> decide)
    | (exact absurd hne (by assumption))

/-- C3 witness: a successful resolution with a cached lyric URL,
evaluated concretely; its payload carries `url`, `title`, `artist` and
`lyric_url` only. -/
theorem resolve_result_invariant_witness :
    resolve_music_url
      { hm := fun _ _ => "SIG", token := "tk", cache := [],
        urlResp := none, headResp := none, getResp := none, lyricResp := none }
      { id := none, song_id := none, song_name := "W", artist := "X",
        url := "http://w/y", lrc := "", lyric := "" } =
      .resolved
        { song_name := "W", artist := "X", final_url := "http://w/y",
          lyric_url := "", has_lyric := false,
          next_tool := "self.music.play_url",
          next_arguments := [("url", "http://w/y"), ("title", "W"), ("artist", "X")],
          lyric_text := "", fetch_url_issued := false, lyric_fetch_issued := false } ∧
    (hasKey "url" [("url", "http://w/y"), ("title", "W"), ("artist", "X")] = true ∧
     hasKey "title" [("url", "http://w/y"), ("title", "W"), ("artist", "X")] = true ∧
     hasKey "artist" [("url", "http://w/y"), ("title", "W"), ("artist", "X")] = true ∧
     ¬ (hasKey "lyric_url" [("url", "http://w/y"), ("title", "W"), ("artist", "X")] = true ∧
        hasKey "lyric" [("url", "http://w/y"), ("title", "W"), ("artist", "X")] = true)) := by
  constructor
  · decide
  · exact (resolve_result_invariant
      { hm := fun _ _ => "SIG", token := "tk", cache := [],
        urlResp := none, headResp := none, getResp := none, lyricResp := none }
      { id := none, song_id := none, song_name := "W", artist := "X",
        url := "http://w/y", lrc := "", lyric := "" }
      { song_name := "W", artist := "X", final_url := "http://w/y",
        lyric_url := "", has_lyric := false,
        next_tool := "self.music.play_url",
        next_arguments := [("url", "http://w/y"), ("title", "W"), ("artist", "X")],
        lyric_text := "", fetch_url_issued := false, lyric_fetch_issued := false }
      (by decide)).2

/-! ### C10: whitespace-only url with no id -/

/-- C10: a call with no `id`, no `song_id`, and a nonempty whitespace-only
`url` passes the missing-information validation (the invalid-reference
message is not returned), normalizes the source URL to the empty string,
performs no play-URL lookup, and returns a structured result with an
empty `final_url` rather than an error. -/
theorem resolve_blank_url_no_id (env : ResolveEnv) (u sn ar : String)
    (h1 : u ≠ "") (h2 : pyStrip u = "") :
    _normalize_music_url u = .ok "" ∧
    resolve_music_url env
      { id := none, song_id := none, song_name := sn, artist := ar,
        url := u, lrc := "", lyric := "" } =
      .resolved
        { song_name := sn, artist := ar, final_url := "",
          lyric_url := "", has_lyric := false,
          next_tool := "self.music.play_url",
          next_arguments := [("url", ""), ("title", sn), ("artist", ar)],
          lyric_text := "", fetch_url_issued := false, lyric_fetch_issued := false } := by
  have hnorm : _normalize_music_url u = .ok "" := by
    unfold _normalize_music_url
    rw [if_pos h2]
  refine ⟨hnorm, ?_⟩
  simp only [resolve_music_url, hnorm, truthyOptStr]
  rw [if_neg (fun hc => h1 hc.2)]
  have hfinal : _resolve_final_url env.headResp env.getResp "" = .ok ("", false, false) := by
    unfold _resolve_final_url
    rw [show _normalize_music_url "" = .ok "" from by decide]
    rfl
  have hlyr : resolveLyricPart env "" none = ("", "", false) := rfl
  simp [hlyr, hfinal]

/-- C10 witness: the blank-url call at a concrete single-space url and a
concrete environment. -/
theorem resolve_blank_url_no_id_witness :
    (" " : String) ≠ "" ∧ pyStrip " " = "" ∧
    (_normalize_music_url " " = .ok "" ∧
     resolve_music_url
       { hm := fun _ _ => "", token := "", cache := [],
         urlResp := none, headResp := none, getResp := none, lyricResp := none }
       { id := none, song_id := none, song_name := "N", artist := "A",
         url := " ", lrc := "", lyric := "" } =
       .resolved
         { song_name := "N", artist := "A", final_url := "",
           lyric_url := "", has_lyric := false,
           next_tool := "self.music.play_url",
           next_arguments := [("url", ""), ("title", "N"), ("artist", "A")],
           lyric_text := "", fetch_url_issued := false, lyric_fetch_issued := false }) :=
  ⟨by decide, by decide,
   resolve_blank_url_no_id
     { hm := fun _ _ => "", token := "", cache := [],
       urlResp := none, headResp := none, getResp := none, lyricResp := none }
     " " "N" "A" (by decide) (by decide)⟩

/-! ### C4 and C5: the URL normalizer -/

/-- Auxiliary: a string built from a character list is empty exactly when
the list is. -/
theorem mk_eq_empty (l : List Char) : String.mk l = "" ↔ l = [] :=
  ⟨fun h => congrArg String.data h, fun h => by rw [h]⟩

/-- Auxiliary: the scheme assigned by a successful `urlsplit` is the
input's own scheme, or the given default when the input has none. -/
theorem urlsplitE_scheme (d u : String) (sp : SplitUrl) (h : urlsplitE d u = .ok sp) :
    sp.scheme = if urlScheme u = "" then d else urlScheme u := by
  simp only [urlsplitE] at h
  repeat' split at h
  all_goals cases h
  all_goals unfold urlScheme
  all_goals split
  all_goals simp_all [mk_eq_empty]

/-- Auxiliary: the scheme assigned by a successful `urlparse`. -/
theorem urlparseE_scheme (d u : String) (p : UrlParts) (h : urlparseE d u = .ok p) :
    p.scheme = if urlScheme u = "" then d else urlScheme u := by
  simp only [urlparseE] at h
  cases hs : urlsplitE d u with
  | error e => rw [hs] at h; cases h
  | ok sp =>
    rw [hs] at h
    cases h
    exact urlsplitE_scheme d u sp hs

/-- Auxiliary: a string beginning with the characters `https:` parses with
scheme `https`, whatever follows. -/
theorem urlScheme_https_start (t : String) : urlScheme ("https:" ++ t) = "https" := rfl

/-- Auxiliary: reassembly with scheme `https` and a nonempty netloc
yields a URL whose parsed scheme is `https`. -/
theorem urlunparse_scheme (u : UrlParts) (hs : u.scheme = "https") (hn : u.netloc ≠ "") :
    urlScheme (urlunparse u) = "https" := by
  simp only [urlunparse, urlunsplit]
  rw [hs]
  repeat' split
  all_goals first | rfl | simp_all

/-- Auxiliary: joining a scheme-less reference against the configured
base URL yields a URL whose parsed scheme is `https`. -/
theorem urljoin_base_scheme (n out : String) (hn : n ≠ "")
    (h0 : urlScheme n = "") (h : urljoinE MUSIC_API_BASE_URL n = .ok out) :
    urlScheme out = "https" := by
  have hbase : urlparseE "" MUSIC_API_BASE_URL =
      .ok ⟨"https", "api.i-meto.com", "/meting/api", "", "", ""⟩ := by decide
  simp only [urljoinE] at h
  rw [if_neg (by decide : ¬(MUSIC_API_BASE_URL = ""))] at h
  rw [if_neg hn] at h
  rw [hbase] at h
  simp only [] at h
  cases hu : urlparseE "https" n with
  | error e => rw [hu] at h; cases h
  | ok u =>
    rw [hu] at h
    simp only [] at h
    have husch : u.scheme = "https" := by
      have := urlparseE_scheme "https" n u hu
      rw [h0] at this
      simpa using this
    rw [husch] at h
    rw [if_neg (by decide)] at h
    have hmem : ("https" : String) ∈ usesNetloc := by decide
    repeat' split at h
    all_goals cases h
    all_goals apply urlunparse_scheme _ rfl
    all_goals try decide
    all_goals simp_all

/-- C4 counterexample: the URL parser raises `ValueError("Invalid IPv6
URL")` on the input `//[` (mismatched bracket in the netloc), so the
normalizer propagates an error instead of returning the protocol-relative
rewrite `https://[` that the claim's third rule prescribes. -/
theorem normalize_rules_counterexample :
    _normalize_music_url "//[" = .error "Invalid IPv6 URL" ∧
    _normalize_music_url "//[" ≠ .ok "https://[" := by
  refine ⟨by decide, by decide⟩

/-- C4 amended: on every input the URL parser accepts, the normalizer
follows the claimed rules in order — blank input yields the empty string;
an input with an `http`/`https` scheme is returned unchanged; an input
starting with `//` gets `https:` prefixed; any other input is resolved as
a relative reference against the configured base URL — and the claim's
three concrete examples hold. -/
theorem normalize_rules_amended (s : String) :
    (pyStrip s = "" → _normalize_music_url s = .ok "") ∧
    (pyStrip s ≠ "" → ∀ p, urlparseE "" (pyStrip s) = .ok p →
      ((p.scheme = "http" ∨ p.scheme = "https") → _normalize_music_url s = .ok (pyStrip s)) ∧
      (¬ (p.scheme = "http" ∨ p.scheme = "https") →
        List.take 2 (pyStrip s).data = ['/', '/'] →
        _normalize_music_url s = .ok ("https:" ++ pyStrip s)) ∧
      (¬ (p.scheme = "http" ∨ p.scheme = "https") →
        List.take 2 (pyStrip s).data ≠ ['/', '/'] →
        _normalize_music_url s = urljoinE MUSIC_API_BASE_URL (pyStrip s))) ∧
    _normalize_music_url "" = .ok "" ∧
    _normalize_music_url "http://x/y" = .ok "http://x/y" ∧
    _normalize_music_url "//x/y" = .ok "https://x/y" := by
  refine ⟨?_, ?_, by decide, by decide, by decide⟩
  · intro h
    unfold _normalize_music_url
    rw [if_pos h]
  · intro hne p hp
    have hbody : _normalize_music_url s =
        (if p.scheme = "http" ∨ p.scheme = "https" then Except.ok (pyStrip s)
         else if List.take 2 (pyStrip s).data = ['/', '/'] then
           Except.ok ("https:" ++ pyStrip s)
         else urljoinE MUSIC_API_BASE_URL (pyStrip s)) := by
      unfold _normalize_music_url
      rw [if_neg hne, hp]
    refine ⟨?_, ?_, ?_⟩
    · intro hsch
      rw [hbody, if_pos hsch]
    · intro hsch htake
      rw [hbody, if_neg hsch, if_pos htake]
    · intro hsch htake
      rw [hbody, if_neg hsch, if_neg htake]

/-- C4 amended witness: the ordered rules at concrete inputs — a blank
input, and a root-relative path resolved against the base URL. -/
theorem normalize_rules_amended_witness :
    (pyStrip " " = "" ∧ _normalize_music_url " " = .ok "") ∧
    (pyStrip "/api?id=1" ≠ "" ∧
     urlparseE "" (pyStrip "/api?id=1") = .ok ⟨"", "", "/api", "", "id=1", ""⟩ ∧
     ¬ ((("" : String) = "http") ∨ (("" : String) = "https")) ∧
     List.take 2 (pyStrip "/api?id=1").data ≠ ['/', '/'] ∧
     _normalize_music_url "/api?id=1" = urljoinE MUSIC_API_BASE_URL (pyStrip "/api?id=1") ∧
     urljoinE MUSIC_API_BASE_URL (pyStrip "/api?id=1") = .ok "https://api.i-meto.com/api?id=1") := by
  refine ⟨⟨by decide, (normalize_rules_amended " ").1 (by decide)⟩,
    by decide, by decide, by decide, by decide, ?_, by decide⟩
  exact ((normalize_rules_amended "/api?id=1").2.1 (by decide)
    ⟨"", "", "/api", "", "id=1", ""⟩ (by decide)).2.2 (by decide) (by decide)

/-- C5 counterexample: the normalizer returns an input with an `ftp`
scheme unchanged (relative resolution returns a reference whose scheme
differs from the base's), so the output is neither empty nor an
`http`/`https` URL, contradicting the claim. -/
theorem normalize_scheme_counterexample :
    _normalize_music_url "ftp://x/y" = .ok "ftp://x/y" ∧
    urlScheme "ftp://x/y" = "ftp" ∧
    ("ftp://x/y" : String) ≠ "" ∧
    ("ftp" : String) ≠ "http" ∧ ("ftp" : String) ≠ "https" := by
  refine ⟨by decide, by decide, by decide, by decide, by decide⟩

/-- C5 amended: whenever normalization succeeds and the input's own
scheme is absent or already `http`/`https`, the output is either empty or
carries an explicit `http`/`https` scheme.  (Inputs carrying another
scheme, such as `ftp`, are returned unchanged with their scheme kept.) -/
theorem normalize_scheme_amended (s out : String)
    (hok : _normalize_music_url s = .ok out)
    (hsch : urlScheme (pyStrip s) = "" ∨ urlScheme (pyStrip s) = "http" ∨
      urlScheme (pyStrip s) = "https") :
    out = "" ∨ urlScheme out = "http" ∨ urlScheme out = "https" := by
  unfold _normalize_music_url at hok
  by_cases hempty : pyStrip s = ""
  · rw [if_pos hempty] at hok
    cases hok
    exact Or.inl rfl
  · rw [if_neg hempty] at hok
    cases hp : urlparseE "" (pyStrip s) with
    | error e => rw [hp] at hok; cases hok
    | ok p =>
      rw [hp] at hok
      simp only [] at hok
      have hps : p.scheme = urlScheme (pyStrip s) := by
        have hx := urlparseE_scheme "" (pyStrip s) p hp
        by_cases hz : urlScheme (pyStrip s) = ""
        · rw [hx, if_pos hz, hz]
        · rw [hx, if_neg hz]
      by_cases hhttp : p.scheme = "http" ∨ p.scheme = "https"
      · rw [if_pos hhttp] at hok
        cases hok
        rcases hhttp with h | h
        · exact Or.inr (Or.inl (by rw [← hps, h]))
        · exact Or.inr (Or.inr (by rw [← hps, h]))
      · rw [if_neg hhttp] at hok
        have hz : urlScheme (pyStrip s) = "" := by
          rcases hsch with h | h | h
          · exact h
          · exact absurd (Or.inl (hps.trans h)) hhttp
          · exact absurd (Or.inr (hps.trans h)) hhttp
        by_cases htake : List.take 2 (pyStrip s).data = ['/', '/']
        · rw [if_pos htake] at hok
          cases hok
          exact Or.inr (Or.inr (urlScheme_https_start (pyStrip s)))
        · rw [if_neg htake] at hok
          exact Or.inr (Or.inr (urljoin_base_scheme (pyStrip s) out hempty hz hok))

/-- C5 amended witness: a scheme-less input resolved against the base
keeps an explicit `https` scheme. -/
theorem normalize_scheme_amended_witness :
    _normalize_music_url "/x" = .ok "https://api.i-meto.com/x" ∧
    urlScheme (pyStrip "/x") = "" ∧
    (("https://api.i-meto.com/x" : String) = "" ∨
     urlScheme "https://api.i-meto.com/x" = "http" ∨
     urlScheme "https://api.i-meto.com/x" = "https") := by
  refine ⟨by decide, by decide, ?_⟩
  exact normalize_scheme_amended "/x" "https://api.i-meto.com/x" (by decide)
    (Or.inl (by decide))

end MusicMCP
